import Mathlib

/-!
Verification of the Mergington High School activities API (`src/app.py`).

The SQLite store is embedded as two lists of rows (`activities`,
`registrations`); the three handlers (`fetch_activities`,
`signup_for_activity`, `unregister_from_activity`) and the initializer
(`init_db`) are translated as pure functions over that state.  SQL
`ORDER BY` on a text column is modelled by insertion sort on the
lexicographic `String` order; a raised `HTTPException` is modelled by the
`Except.error` branch carrying the status code and detail, and the
transaction rollback that accompanies it means the store is unchanged
(the error branch carries no new store).
-/

/-- A row of the `activities` table: name is the primary key. -/
structure Activity where
  name : String
  description : String
  schedule : String
  max_participants : Nat
deriving DecidableEq, Repr

/-- A row of the `registrations` table: (activity_name, email) is the
composite primary key. -/
structure Registration where
  activity_name : String
  email : String
deriving DecidableEq, Repr

/-- A raised FastAPI `HTTPException`: status code and detail string. -/
structure HTTPException where
  status_code : Nat
  detail : String
deriving DecidableEq, Repr

/-- The value stored for each activity name in the mapping returned by
`fetch_activities` (and, with seed participants, in `INITIAL_ACTIVITIES`). -/
structure ActivityDetails where
  description : String
  schedule : String
  max_participants : Nat
  participants : List String
deriving DecidableEq, Repr

/-- The persistent store: the contents of the two tables. -/
structure Store where
  activities : List Activity
  registrations : List Registration
deriving DecidableEq, Repr

/-- The seed data `INITIAL_ACTIVITIES` from `app.py`, in Python dict
insertion order. -/
def INITIAL_ACTIVITIES : List (String × ActivityDetails) := [
  ("Chess Club",
   { description := "Learn strategies and compete in chess tournaments",
     schedule := "Fridays, 3:30 PM - 5:00 PM",
     max_participants := 12,
     participants := ["michael@mergington.edu", "daniel@mergington.edu"] }),
  ("Programming Class",
   { description := "Learn programming fundamentals and build software projects",
     schedule := "Tuesdays and Thursdays, 3:30 PM - 4:30 PM",
     max_participants := 20,
     participants := ["emma@mergington.edu", "sophia@mergington.edu"] }),
  ("Gym Class",
   { description := "Physical education and sports activities",
     schedule := "Mondays, Wednesdays, Fridays, 2:00 PM - 3:00 PM",
     max_participants := 30,
     participants := ["john@mergington.edu", "olivia@mergington.edu"] }),
  ("Soccer Team",
   { description := "Join the school soccer team and compete in matches",
     schedule := "Tuesdays and Thursdays, 4:00 PM - 5:30 PM",
     max_participants := 22,
     participants := ["liam@mergington.edu", "noah@mergington.edu"] }),
  ("Basketball Team",
   { description := "Practice and play basketball with the school team",
     schedule := "Wednesdays and Fridays, 3:30 PM - 5:00 PM",
     max_participants := 15,
     participants := ["ava@mergington.edu", "mia@mergington.edu"] }),
  ("Art Club",
   { description := "Explore your creativity through painting and drawing",
     schedule := "Thursdays, 3:30 PM - 5:00 PM",
     max_participants := 15,
     participants := ["amelia@mergington.edu", "harper@mergington.edu"] }),
  ("Drama Club",
   { description := "Act, direct, and produce plays and performances",
     schedule := "Mondays and Wednesdays, 4:00 PM - 5:30 PM",
     max_participants := 20,
     participants := ["ella@mergington.edu", "scarlett@mergington.edu"] }),
  ("Math Club",
   { description := "Solve challenging problems and participate in math competitions",
     schedule := "Tuesdays, 3:30 PM - 4:30 PM",
     max_participants := 10,
     participants := ["james@mergington.edu", "benjamin@mergington.edu"] }),
  ("Debate Team",
   { description := "Develop public speaking and argumentation skills",
     schedule := "Fridays, 4:00 PM - 5:30 PM",
     max_participants := 12,
     participants := ["charlotte@mergington.edu", "henry@mergington.edu"] })]

/-- The initializer `init_db`: schema creation is a no-op on this model; when
`SELECT COUNT(*) FROM activities` is `0` the seed rows are inserted
(activity row, then its registrations, per seed entry), otherwise
nothing is written. -/
def init_db (s : Store) : Store :=
  if s.activities.length == 0 then
    { activities := s.activities ++ INITIAL_ACTIVITIES.map (fun p =>
        { name := p.1, description := p.2.description, schedule := p.2.schedule,
          max_participants := p.2.max_participants }),
      registrations := s.registrations ++ INITIAL_ACTIVITIES.flatMap (fun p =>
        p.2.participants.map (fun e => { activity_name := p.1, email := e })) }
  else s

/-- Lexicographic order on strings via their character lists: SQLite
`ORDER BY` on a text column.  (Equivalent to the `String` order, see
`strDataLe_le`; stated on `.data` so that it evaluates by kernel
reduction.) -/
def strDataLe (a b : String) : Prop := a.data ≤ b.data

instance : DecidableRel strDataLe := fun a b =>
  inferInstanceAs (Decidable (a.data ≤ b.data))

instance : IsTotal String strDataLe :=
  ⟨fun a b => le_total a.data b.data⟩

instance : IsTrans String strDataLe :=
  ⟨fun _ _ _ h1 h2 => le_trans h1 h2⟩

/-- The read path `fetch_activities`: all activities `ORDER BY name`, each with its
registrations `ORDER BY email`, assembled into the name-keyed mapping
(a Python dict keyed in insertion order, hence in name order). -/
instance : IsTotal Activity (fun a b => strDataLe a.name b.name) :=
  ⟨fun a b => le_total a.name.data b.name.data⟩

instance : IsTrans Activity (fun a b => strDataLe a.name b.name) :=
  ⟨fun _ _ _ h1 h2 => le_trans h1 h2⟩

def fetch_activities (s : Store) : List (String × ActivityDetails) :=
  (List.insertionSort (fun a b => strDataLe a.name b.name) s.activities).map (fun a =>
    (a.name,
     { description := a.description,
       schedule := a.schedule,
       max_participants := a.max_participants,
       participants := List.insertionSort strDataLe
         ((s.registrations.filter (fun r => r.activity_name == a.name)).map
           (fun r => r.email)) }))

/-- The handler `signup_for_activity`: 404 when the activity row is absent, 400 when the
registration row already exists, otherwise insert the registration and
return the confirmation message. -/
def signup_for_activity (s : Store) (activity_name email : String) :
    Except HTTPException (Store × String) :=
  if !(s.activities.any (fun a => a.name == activity_name)) then
    .error ⟨404, "Activity not found"⟩
  else if s.registrations.any
      (fun r => r.activity_name == activity_name && r.email == email) then
    .error ⟨400, "Student is already signed up"⟩
  else
    .ok ({ s with registrations := s.registrations ++ [⟨activity_name, email⟩] },
         "Signed up " ++ email ++ " for " ++ activity_name)

/-- The handler `unregister_from_activity`: 404 when the activity row is absent; then the
`DELETE` removes every row matching the pair, and a zero rowcount raises 400
(rolling the transaction back), otherwise the deletion is committed and the
confirmation message returned. -/
def unregister_from_activity (s : Store) (activity_name email : String) :
    Except HTTPException (Store × String) :=
  if !(s.activities.any (fun a => a.name == activity_name)) then
    .error ⟨404, "Activity not found"⟩
  else
    let remaining := s.registrations.filter
      (fun r => !(r.activity_name == activity_name && r.email == email))
    if s.registrations.length - remaining.length == 0 then
      .error ⟨400, "Student is not signed up for this activity"⟩
    else
      .ok ({ s with registrations := remaining },
           "Unregistered " ++ email ++ " from " ++ activity_name)

/-- The store state observed after a request: the new store on success,
the rolled-back (unchanged) store when the handler raised. -/
def postState (s : Store) (r : Except HTTPException (Store × String)) : Store :=
  match r with
  | .ok (s', _) => s'
  | .error _ => s

/-- The activity exists in the store (the `SELECT name FROM activities
WHERE name = ?` lookup finds a row). -/
def activityExists (s : Store) (name : String) : Prop :=
  ∃ a ∈ s.activities, a.name = name

instance (s : Store) (name : String) : Decidable (activityExists s name) := by
  unfold activityExists; infer_instance

/-- The registration row (name, email) exists in the store. -/
def isRegistered (s : Store) (name email : String) : Prop :=
  (⟨name, email⟩ : Registration) ∈ s.registrations

instance (s : Store) (name email : String) : Decidable (isRegistered s name email) := by
  unfold isRegistered; infer_instance

/-- The empty (fresh) store. -/
def emptyStore : Store := ⟨[], []⟩

/-- The store produced by first-run initialization (used as a concrete
test state). -/
def seededStore : Store := init_db emptyStore

/-- A store whose single activity has capacity 1 but already holds two
registrations: signup does not look at the count. -/
def overCapacityStore : Store :=
  ⟨[⟨"Chess Club", "Learn strategies and compete in chess tournaments",
     "Fridays, 3:30 PM - 5:00 PM", 1⟩],
   [⟨"Chess Club", "a@mergington.edu"⟩, ⟨"Chess Club", "b@mergington.edu"⟩]⟩

/-- A store with no activity rows but a stray registration row naming a
non-existent activity. -/
def ghostStore : Store := ⟨[], [⟨"Ghost Club", "x@mergington.edu"⟩]⟩

/-- One activity, nobody registered yet. -/
def rtA : Store :=
  ⟨[⟨"Chess Club", "Learn strategies and compete in chess tournaments",
     "Fridays, 3:30 PM - 5:00 PM", 12⟩], []⟩

/-- One activity with one registration. -/
def rtB : Store :=
  ⟨[⟨"Chess Club", "Learn strategies and compete in chess tournaments",
     "Fridays, 3:30 PM - 5:00 PM", 12⟩],
   [⟨"Chess Club", "zoe@mergington.edu"⟩]⟩

/-- The store `rtA` after signing zoe up. -/
def rtA' : Store :=
  { rtA with registrations := rtA.registrations ++ [⟨"Chess Club", "zoe@mergington.edu"⟩] }

/-- The store `rtB` after unregistering zoe. -/
def rtB' : Store :=
  { rtB with registrations := rtB.registrations.filter (fun r => !(r.activity_name == "Chess Club" && r.email == "zoe@mergington.edu")) }

/-- A small two-activity store with unsorted rows and registrations. -/
def miniStore : Store :=
  ⟨[⟨"B Club", "b things", "Mondays", 5⟩, ⟨"A Club", "a things", "Tuesdays", 5⟩],
   [⟨"B Club", "zoe@mergington.edu"⟩, ⟨"B Club", "amy@mergington.edu"⟩,
    ⟨"A Club", "mia@mergington.edu"⟩]⟩

/-! ### Bridging lemmas between the `Bool`-level code and the `Prop`-level
statements -/

lemma any_activity_iff (s : Store) (n : String) :
    (s.activities.any (fun a => a.name == n)) = true ↔ activityExists s n := by
  simp [activityExists]

lemma any_registration_iff (s : Store) (n e : String) :
    (s.registrations.any (fun r => r.activity_name == n && r.email == e)) = true ↔
      isRegistered s n e := by
  simp only [isRegistered, List.any_eq_true, Bool.and_eq_true, beq_iff_eq]
  constructor
  · rintro ⟨⟨ra, re⟩, hmem, h1, h2⟩
    cases h1; cases h2; exact hmem
  · intro h
    exact ⟨_, h, rfl, rfl⟩

lemma keep_of_ne {r : Registration} {n e : String} (h : r ≠ ⟨n, e⟩) :
    (!(r.activity_name == n && r.email == e)) = true := by
  rcases r with ⟨ra, re⟩
  simp only [Bool.not_eq_true', Bool.and_eq_false_iff, beq_eq_false_iff_ne, ne_eq]
  by_cases h1 : ra = n
  · subst h1
    by_cases h2 : re = e
    · subst h2
      exact absurd rfl h
    · exact Or.inr h2
  · exact Or.inl h1

lemma filter_length_eq_iff_not_mem (n e : String) (l : List Registration) :
    (l.filter (fun r => !(r.activity_name == n && r.email == e))).length = l.length ↔
      (⟨n, e⟩ : Registration) ∉ l := by
  induction l with
  | nil => simp
  | cons r t ih =>
    by_cases h : r = (⟨n, e⟩ : Registration)
    · subst h
      simp only [List.filter_cons, beq_self_eq_true, Bool.and_self, Bool.not_true,
        Bool.false_eq_true, if_false, List.length_cons, List.mem_cons, true_or,
        not_true_eq_false, iff_false]
      intro hlen
      have := List.length_filter_le
        (fun r : Registration => !(r.activity_name == n && r.email == e)) t
      omega
    · have hk := keep_of_ne h
      simp only [List.filter_cons, hk, if_true, List.length_cons, List.mem_cons,
        Nat.add_right_cancel_iff, ih, not_or]
      constructor
      · intro hnm
        exact ⟨fun he => h he.symm, hnm⟩
      · intro hnm
        exact hnm.2

lemma rowcount_zero_iff (n e : String) (l : List Registration) :
    l.length - (l.filter (fun r => !(r.activity_name == n && r.email == e))).length = 0 ↔
      (⟨n, e⟩ : Registration) ∉ l := by
  rw [Nat.sub_eq_zero_iff_le]
  constructor
  · intro h
    exact (filter_length_eq_iff_not_mem n e l).mp
      (Nat.le_antisymm (List.length_filter_le _ _) h)
  · intro h
    exact le_of_eq ((filter_length_eq_iff_not_mem n e l).mpr h).symm

/-! ### Inversion of successful operations -/

lemma signup_ok_inv {s : Store} {A e : String} {s' : Store} {m : String}
    (h : signup_for_activity s A e = .ok (s', m)) :
    activityExists s A ∧ ¬ isRegistered s A e ∧
    s' = { s with registrations := s.registrations ++ [⟨A, e⟩] } ∧
    m = "Signed up " ++ e ++ " for " ++ A := by
  unfold signup_for_activity at h
  split at h
  · exact absurd h (by simp)
  next hc1 =>
    split at h
    · exact absurd h (by simp)
    next hc2 =>
      rw [Except.ok.injEq, Prod.mk.injEq] at h
      refine ⟨?_, ?_, h.1.symm, h.2.symm⟩
      · rw [← any_activity_iff]
        simpa using hc1
      · rw [← any_registration_iff]
        simpa using hc2

lemma unregister_ok_inv {s : Store} {A e : String} {s' : Store} {m : String}
    (h : unregister_from_activity s A e = .ok (s', m)) :
    activityExists s A ∧ isRegistered s A e ∧
    s' = { s with registrations :=
      s.registrations.filter (fun r => !(r.activity_name == A && r.email == e)) } ∧
    m = "Unregistered " ++ e ++ " from " ++ A := by
  unfold unregister_from_activity at h
  split at h
  · exact absurd h (by simp)
  next hc1 =>
    simp only [] at h
    split at h
    · exact absurd h (by simp)
    next hc2 =>
      rw [Except.ok.injEq, Prod.mk.injEq] at h
      refine ⟨?_, ?_, h.1.symm, h.2.symm⟩
      · rw [← any_activity_iff]
        simpa using hc1
      · by_contra hnm
        exact hc2 (by simpa using (rowcount_zero_iff A e s.registrations).mpr hnm)

/-! ### Behaviour equations for the two mutating handlers -/

lemma signup_notfound_eq (s : Store) (A e : String) (hA : ¬ activityExists s A) :
    signup_for_activity s A e = .error ⟨404, "Activity not found"⟩ := by
  have hAb : (s.activities.any fun a => a.name == A) = false := by
    rw [Bool.eq_false_iff]
    intro hx
    exact hA ((any_activity_iff s A).mp hx)
  simp [signup_for_activity, hAb]

lemma unregister_notfound_eq (s : Store) (A e : String) (hA : ¬ activityExists s A) :
    unregister_from_activity s A e = .error ⟨404, "Activity not found"⟩ := by
  have hAb : (s.activities.any fun a => a.name == A) = false := by
    rw [Bool.eq_false_iff]
    intro hx
    exact hA ((any_activity_iff s A).mp hx)
  simp [unregister_from_activity, hAb]

lemma signup_conflict_eq (s : Store) (A e : String) (hA : activityExists s A)
    (hreg : isRegistered s A e) :
    signup_for_activity s A e = .error ⟨400, "Student is already signed up"⟩ := by
  have hAb : (s.activities.any fun a => a.name == A) = true :=
    (any_activity_iff s A).mpr hA
  have hrb : (s.registrations.any fun r => r.activity_name == A && r.email == e) = true :=
    (any_registration_iff s A e).mpr hreg
  simp [signup_for_activity, hAb, hrb]

lemma signup_ok_eq (s : Store) (A e : String) (hA : activityExists s A)
    (hne : ¬ isRegistered s A e) :
    signup_for_activity s A e =
      .ok ({ s with registrations := s.registrations ++ [⟨A, e⟩] },
        "Signed up " ++ e ++ " for " ++ A) := by
  have hAb : (s.activities.any fun a => a.name == A) = true :=
    (any_activity_iff s A).mpr hA
  have hrb : (s.registrations.any fun r => r.activity_name == A && r.email == e) = false := by
    rw [Bool.eq_false_iff]
    intro hx
    exact hne ((any_registration_iff s A e).mp hx)
  simp [signup_for_activity, hAb, hrb]

lemma unregister_invalid_eq (s : Store) (A e : String) (hA : activityExists s A)
    (hne : ¬ isRegistered s A e) :
    unregister_from_activity s A e =
      .error ⟨400, "Student is not signed up for this activity"⟩ := by
  have hAb : (s.activities.any fun a => a.name == A) = true :=
    (any_activity_iff s A).mpr hA
  have hz : s.registrations.length -
      (s.registrations.filter (fun r => !(r.activity_name == A && r.email == e))).length = 0 :=
    (rowcount_zero_iff A e s.registrations).mpr hne
  unfold unregister_from_activity
  simp only []
  rw [hAb, if_neg (by simp), if_pos (by rw [hz]; rfl)]

lemma unregister_ok_eq (s : Store) (A e : String) (hA : activityExists s A)
    (hreg : isRegistered s A e) :
    unregister_from_activity s A e =
      .ok ({ s with registrations :=
          s.registrations.filter (fun r => !(r.activity_name == A && r.email == e)) },
        "Unregistered " ++ e ++ " from " ++ A) := by
  have hAb : (s.activities.any fun a => a.name == A) = true :=
    (any_activity_iff s A).mpr hA
  have hz : (s.registrations.length -
      (s.registrations.filter
        (fun r => !(r.activity_name == A && r.email == e))).length == 0) = false := by
    rw [Bool.eq_false_iff]
    intro hx
    exact ((rowcount_zero_iff A e s.registrations).mp (by simpa using hx)) hreg
  unfold unregister_from_activity
  simp only []
  rw [hAb, if_neg (by simp), if_neg (by rw [hz]; exact Bool.false_ne_true)]

/-! ### Order facts for the sort comparator -/

lemma strDataLe_le {a b : String} (h : strDataLe a b) : a ≤ b := by
  rw [String.le_iff_toList_le]
  exact h

/-! ### Structure of the listing -/

lemma fetch_entry_inv {s : Store} {p : String × ActivityDetails}
    (hp : p ∈ fetch_activities s) :
    ∃ a ∈ s.activities, p.1 = a.name ∧ p.2.description = a.description ∧
      p.2.schedule = a.schedule ∧ p.2.max_participants = a.max_participants ∧
      p.2.participants = List.insertionSort strDataLe
        ((s.registrations.filter (fun r => r.activity_name == a.name)).map
          (fun r => r.email)) := by
  unfold fetch_activities at hp
  rcases List.mem_map.mp hp with ⟨a, ha, rfl⟩
  exact ⟨a, (List.perm_insertionSort _ _).mem_iff.mp ha, rfl, rfl, rfl, rfl, rfl⟩

lemma exists_fetch_entry {s : Store} {a : Activity} (ha : a ∈ s.activities) :
    ∃ p ∈ fetch_activities s, p.1 = a.name ∧ p.2.description = a.description ∧
      p.2.schedule = a.schedule ∧ p.2.max_participants = a.max_participants := by
  have ha' : a ∈ List.insertionSort (fun a b => strDataLe a.name b.name) s.activities :=
    (List.perm_insertionSort _ _).mem_iff.mpr ha
  refine ⟨(a.name,
    { description := a.description, schedule := a.schedule,
      max_participants := a.max_participants,
      participants := List.insertionSort strDataLe
        ((s.registrations.filter (fun r => r.activity_name == a.name)).map
          (fun r => r.email)) }), ?_, rfl, rfl, rfl, rfl⟩
  unfold fetch_activities
  exact List.mem_map_of_mem _ ha'

lemma mem_participants_iff {s : Store} {p : String × ActivityDetails}
    (hp : p ∈ fetch_activities s) (e : String) :
    e ∈ p.2.participants ↔ (⟨p.1, e⟩ : Registration) ∈ s.registrations := by
  rcases fetch_entry_inv hp with ⟨a, ha, hname, -, -, -, hparts⟩
  rw [hparts, (List.perm_insertionSort _ _).mem_iff, List.mem_map]
  constructor
  · rintro ⟨r, hr, rfl⟩
    rcases List.mem_filter.mp hr with ⟨hmem, hra⟩
    have hra' : r.activity_name = a.name := by simpa using hra
    have hfst : p.1 = r.activity_name := by rw [hname, hra']
    have hr2 : (⟨p.1, r.email⟩ : Registration) = r := by rw [hfst]
    rw [hr2]
    exact hmem
  · intro hmem
    have hpred : ((⟨p.1, e⟩ : Registration).activity_name == a.name) = true := by
      simp [hname]
    refine ⟨⟨p.1, e⟩, ?_, ?_⟩
    · exact List.mem_filter.mpr ⟨hmem, hpred⟩
    · rfl

/-! ### The claims -/

/-- C1: for an existing activity A and any email e, signup fails with
HTTP 400 "Student is already signed up" when the registration (A, e) already
exists, and otherwise succeeds with HTTP 200 body
"Signed up {email} for {activity_name}", inserting exactly the registration
(A, e), which exists afterwards; hence signing the same pair up twice in a
row succeeds and then returns the 400 conflict. -/
theorem signup_conflict_and_success (s : Store) (A e : String)
    (hA : activityExists s A) :
    (isRegistered s A e →
      signup_for_activity s A e = .error ⟨400, "Student is already signed up"⟩) ∧
    (¬ isRegistered s A e →
      signup_for_activity s A e =
        .ok ({ s with registrations := s.registrations ++ [⟨A, e⟩] },
          "Signed up " ++ e ++ " for " ++ A) ∧
      isRegistered { s with registrations := s.registrations ++ [⟨A, e⟩] } A e ∧
      signup_for_activity { s with registrations := s.registrations ++ [⟨A, e⟩] } A e =
        .error ⟨400, "Student is already signed up"⟩) := by
  refine ⟨fun hreg => signup_conflict_eq s A e hA hreg, fun hne => ?_⟩
  have hreg' : isRegistered { s with registrations := s.registrations ++ [⟨A, e⟩] } A e := by
    simp [isRegistered]
  have hA' : activityExists { s with registrations := s.registrations ++ [⟨A, e⟩] } A := hA
  exact ⟨signup_ok_eq s A e hA hne, hreg', signup_conflict_eq _ A e hA' hreg'⟩

/-- Witness for C1: on the seeded store, signing a new email up for
"Chess Club" succeeds once and conflicts the second time. -/
theorem signup_conflict_and_success_witness :
    activityExists seededStore "Chess Club" ∧
    ¬ isRegistered seededStore "Chess Club" "new@mergington.edu" ∧
    (signup_for_activity seededStore "Chess Club" "new@mergington.edu" =
      .ok ({ seededStore with registrations :=
          seededStore.registrations ++ [⟨"Chess Club", "new@mergington.edu"⟩] },
        "Signed up " ++ "new@mergington.edu" ++ " for " ++ "Chess Club") ∧
    isRegistered { seededStore with registrations :=
        seededStore.registrations ++ [⟨"Chess Club", "new@mergington.edu"⟩] }
      "Chess Club" "new@mergington.edu" ∧
    signup_for_activity { seededStore with registrations :=
        seededStore.registrations ++ [⟨"Chess Club", "new@mergington.edu"⟩] }
      "Chess Club" "new@mergington.edu" =
      .error ⟨400, "Student is already signed up"⟩) :=
  ⟨by decide, by decide,
    (signup_conflict_and_success seededStore "Chess Club" "new@mergington.edu"
      (by decide)).2 (by decide)⟩

/-- C2: for an activity name not in the store, both signup and unregister
fail with HTTP 404 "Activity not found", whatever the registrations hold. -/
theorem unknown_activity_not_found (s : Store) (A e : String)
    (hA : ¬ activityExists s A) :
    signup_for_activity s A e = .error ⟨404, "Activity not found"⟩ ∧
    unregister_from_activity s A e = .error ⟨404, "Activity not found"⟩ :=
  ⟨signup_notfound_eq s A e hA, unregister_notfound_eq s A e hA⟩

/-- Witness for C2: the missing activity is 404 even though a registration
row mentions its name. -/
theorem unknown_activity_not_found_witness :
    ¬ activityExists ghostStore "Ghost Club" ∧
    (signup_for_activity ghostStore "Ghost Club" "x@mergington.edu" =
      .error ⟨404, "Activity not found"⟩ ∧
    unregister_from_activity ghostStore "Ghost Club" "x@mergington.edu" =
      .error ⟨404, "Activity not found"⟩) :=
  ⟨by decide,
    unknown_activity_not_found ghostStore "Ghost Club" "x@mergington.edu" (by decide)⟩

/-- C3: for an existing activity A, unregistering an email with no
registration (A, e) fails with HTTP 400 "Student is not signed up for this
activity"; when the registration exists, unregister succeeds with HTTP 200
body "Unregistered {email} from {activity_name}" and the registration no
longer exists afterwards. -/
theorem unregister_invalid_and_success (s : Store) (A e : String)
    (hA : activityExists s A) :
    (¬ isRegistered s A e →
      unregister_from_activity s A e =
        .error ⟨400, "Student is not signed up for this activity"⟩) ∧
    (isRegistered s A e →
      unregister_from_activity s A e =
        .ok ({ s with registrations :=
            s.registrations.filter (fun r => !(r.activity_name == A && r.email == e)) },
          "Unregistered " ++ e ++ " from " ++ A) ∧
      ¬ isRegistered { s with registrations :=
          s.registrations.filter (fun r => !(r.activity_name == A && r.email == e)) } A e)
    := by
  refine ⟨fun hne => unregister_invalid_eq s A e hA hne,
    fun hreg => ⟨unregister_ok_eq s A e hA hreg, ?_⟩⟩
  simp [isRegistered, List.mem_filter]

/-- Witness for C3: unregistering a seeded participant of "Chess Club"
succeeds and removes the registration. -/
theorem unregister_invalid_and_success_witness :
    activityExists seededStore "Chess Club" ∧
    isRegistered seededStore "Chess Club" "daniel@mergington.edu" ∧
    (unregister_from_activity seededStore "Chess Club" "daniel@mergington.edu" =
      .ok ({ seededStore with registrations :=
          seededStore.registrations.filter (fun r => !(r.activity_name == "Chess Club" && r.email == "daniel@mergington.edu")) },
        "Unregistered " ++ "daniel@mergington.edu" ++ " from " ++ "Chess Club") ∧
    ¬ isRegistered { seededStore with registrations :=
        seededStore.registrations.filter (fun r => !(r.activity_name == "Chess Club" && r.email == "daniel@mergington.edu")) }
      "Chess Club" "daniel@mergington.edu") :=
  ⟨by decide, by decide,
    (unregister_invalid_and_success seededStore "Chess Club" "daniel@mergington.edu"
      (by decide)).2 (by decide)⟩

/-- C5: capacity is never consulted: for an existing activity and an email
not yet registered, signup succeeds whatever the current number of
registrations (no `max_participants` check appears in the handler). -/
theorem signup_ignores_capacity (s : Store) (A e : String)
    (hA : activityExists s A) (hne : ¬ isRegistered s A e) :
    signup_for_activity s A e =
      .ok ({ s with registrations := s.registrations ++ [⟨A, e⟩] },
        "Signed up " ++ e ++ " for " ++ A) :=
  signup_ok_eq s A e hA hne

/-- Witness for C5: in `overCapacityStore` the activity has
`max_participants = 1` and already two registrations, yet a third signup
succeeds. -/
theorem signup_ignores_capacity_witness :
    (overCapacityStore.registrations.filter
      (fun r => r.activity_name == "Chess Club")).length ≥ 1 ∧
    signup_for_activity overCapacityStore "Chess Club" "c@mergington.edu" =
      .ok ({ overCapacityStore with registrations :=
          overCapacityStore.registrations ++ [⟨"Chess Club", "c@mergington.edu"⟩] },
        "Signed up " ++ "c@mergington.edu" ++ " for " ++ "Chess Club") :=
  ⟨by decide,
    signup_ignores_capacity overCapacityStore "Chess Club" "c@mergington.edu"
      (by decide) (by decide)⟩

/-- C8: initialization is a no-op on a non-empty store: when at least one
activity row exists, `init_db` changes neither table, so seeding happens
only on an empty activities table. -/
theorem init_db_idempotent (s : Store) (h : s.activities ≠ []) : init_db s = s := by
  have hlen : (s.activities.length == 0) = false := by
    rw [Bool.eq_false_iff]
    intro hx
    exact h (List.length_eq_zero.mp (by simpa using hx))
  simp [init_db, hlen]

/-- Witness for C8: re-running `init_db` on the seeded store is the
identity. -/
theorem init_db_idempotent_witness :
    seededStore.activities ≠ [] ∧ init_db seededStore = seededStore :=
  ⟨by decide, init_db_idempotent seededStore (by decide)⟩

/-- C9: a failing signup or unregister (any raised `HTTPException`) leaves
the store exactly as it was: the observed post-request state is the
pre-request state. -/
theorem failed_ops_preserve_store (s : Store) (A e : String) :
    (∀ err, signup_for_activity s A e = .error err →
      postState s (signup_for_activity s A e) = s) ∧
    (∀ err, unregister_from_activity s A e = .error err →
      postState s (unregister_from_activity s A e) = s) := by
  constructor
  · intro err h
    rw [h]
    rfl
  · intro err h
    rw [h]
    rfl

/-- Witness for C9: both operations fail (404) on the empty store and the
post-state is the empty store. -/
theorem failed_ops_preserve_store_witness :
    postState emptyStore
      (signup_for_activity emptyStore "Chess Club" "x@mergington.edu") = emptyStore ∧
    postState emptyStore
      (unregister_from_activity emptyStore "Chess Club" "x@mergington.edu") = emptyStore :=
  ⟨(failed_ops_preserve_store emptyStore "Chess Club" "x@mergington.edu").1
      ⟨404, "Activity not found"⟩ rfl,
   (failed_ops_preserve_store emptyStore "Chess Club" "x@mergington.edu").2
      ⟨404, "Activity not found"⟩ rfl⟩

/-- C4: round-trip with the listing: after a successful signup(A, e) the
listing has an entry keyed A whose participants contain e; after a
successful unregister(A, e) no entry keyed A lists e. -/
theorem signup_unregister_roundtrip (s t : Store) (A e : String)
    (x y : Store) (m n : String)
    (hs : signup_for_activity s A e = .ok (x, m))
    (ht : unregister_from_activity t A e = .ok (y, n)) :
    (∃ p ∈ fetch_activities x, p.1 = A ∧ e ∈ p.2.participants) ∧
    (∀ p ∈ fetch_activities y, p.1 = A → e ∉ p.2.participants) := by
  obtain ⟨hA, -, rfl, -⟩ := signup_ok_inv hs
  obtain ⟨-, -, rfl, -⟩ := unregister_ok_inv ht
  constructor
  · obtain ⟨a, ha, hname⟩ := hA
    have ha' : a ∈ ({ s with registrations :=
        s.registrations ++ [⟨A, e⟩] } : Store).activities := ha
    obtain ⟨p, hp, hp1, -, -, -⟩ := exists_fetch_entry ha'
    refine ⟨p, hp, by rw [hp1, hname], ?_⟩
    rw [mem_participants_iff hp e, hp1, hname]
    simp
  · intro p hp hpA
    rw [mem_participants_iff hp e, hpA]
    simp [List.mem_filter]

/-- Witness for C4 on one-activity stores: signup makes the email appear in
the listing, unregister makes it disappear. -/
theorem signup_unregister_roundtrip_witness :
    (∃ p ∈ fetch_activities rtA',
      p.1 = "Chess Club" ∧ "zoe@mergington.edu" ∈ p.2.participants) ∧
    (∀ p ∈ fetch_activities rtB',
      p.1 = "Chess Club" → "zoe@mergington.edu" ∉ p.2.participants) :=
  signup_unregister_roundtrip rtA rtB "Chess Club" "zoe@mergington.edu" rtA' rtB'
    ("Signed up " ++ "zoe@mergington.edu" ++ " for " ++ "Chess Club")
    ("Unregistered " ++ "zoe@mergington.edu" ++ " from " ++ "Chess Club")
    rfl rfl

/-- C10: frame condition: a successful signup changes the store only by
appending the one registration (A, e) (activities untouched); a successful
unregister leaves the activities untouched, removes (A, e), and keeps every
other registration's membership unchanged. -/
theorem ops_frame (s t : Store) (A e : String) (x y : Store) (m n : String)
    (hs : signup_for_activity s A e = .ok (x, m))
    (ht : unregister_from_activity t A e = .ok (y, n)) :
    (x.activities = s.activities ∧
      x.registrations = s.registrations ++ [⟨A, e⟩]) ∧
    (y.activities = t.activities ∧
      (⟨A, e⟩ : Registration) ∉ y.registrations ∧
      ∀ r : Registration, r ≠ ⟨A, e⟩ →
        (r ∈ y.registrations ↔ r ∈ t.registrations)) := by
  obtain ⟨-, -, rfl, -⟩ := signup_ok_inv hs
  obtain ⟨-, -, rfl, -⟩ := unregister_ok_inv ht
  refine ⟨⟨rfl, rfl⟩, rfl, ?_, ?_⟩
  · simp [List.mem_filter]
  · intro r hr
    rw [List.mem_filter]
    exact ⟨fun h => h.1, fun h => ⟨h, keep_of_ne hr⟩⟩

/-- Witness for C10 at the same one-activity stores. -/
theorem ops_frame_witness :
    (rtA'.activities = rtA.activities ∧
      rtA'.registrations = rtA.registrations ++ [⟨"Chess Club", "zoe@mergington.edu"⟩]) ∧
    (rtB'.activities = rtB.activities ∧
      (⟨"Chess Club", "zoe@mergington.edu"⟩ : Registration) ∉ rtB'.registrations ∧
      ∀ r : Registration, r ≠ ⟨"Chess Club", "zoe@mergington.edu"⟩ →
        (r ∈ rtB'.registrations ↔ r ∈ rtB.registrations)) :=
  ops_frame rtA rtB "Chess Club" "zoe@mergington.edu" rtA' rtB'
    ("Signed up " ++ "zoe@mergington.edu" ++ " for " ++ "Chess Club")
    ("Unregistered " ++ "zoe@mergington.edu" ++ " from " ++ "Chess Club")
    rfl rfl

/-- C6: on any store whose primary keys hold (distinct activity names,
distinct registration pairs), the listing is deterministically ordered:
entry keys are the activity names in strictly ascending lexicographic
order, and each entry carries the stored description/schedule/capacity and
exactly that activity's registered emails in strictly ascending
lexicographic order. -/
theorem fetch_activities_deterministic (s : Store)
    (h1 : (s.activities.map Activity.name).Nodup)
    (h2 : s.registrations.Nodup) :
    ((fetch_activities s).map Prod.fst).Sorted (fun x y => x < y) ∧
    ((fetch_activities s).map Prod.fst).Perm (s.activities.map Activity.name) ∧
    ∀ p ∈ fetch_activities s,
      p.2.participants.Sorted (fun x y => x < y) ∧
      (∀ e, e ∈ p.2.participants ↔ (⟨p.1, e⟩ : Registration) ∈ s.registrations) ∧
      ∃ a ∈ s.activities, p.1 = a.name ∧ p.2.description = a.description ∧
        p.2.schedule = a.schedule ∧ p.2.max_participants = a.max_participants := by
  have hmapfst : (fetch_activities s).map Prod.fst =
      (List.insertionSort (fun a b => strDataLe a.name b.name) s.activities).map
        Activity.name := by
    unfold fetch_activities
    rw [List.map_map]
    rfl
  have hperm : ((fetch_activities s).map Prod.fst).Perm (s.activities.map Activity.name) := by
    rw [hmapfst]
    exact (List.perm_insertionSort _ _).map _
  have hnodup : ((fetch_activities s).map Prod.fst).Nodup := hperm.symm.nodup h1
  have hsortedLe : ((fetch_activities s).map Prod.fst).Sorted (fun x y => x ≤ y) := by
    rw [hmapfst]
    have hs1 : (List.insertionSort (fun a b => strDataLe a.name b.name) s.activities).Sorted
        (fun a b => strDataLe a.name b.name) :=
      List.sorted_insertionSort _ _
    exact List.pairwise_map.mpr (hs1.imp (fun h => strDataLe_le h))
  refine ⟨List.Sorted.lt_of_le hsortedLe hnodup, hperm, ?_⟩
  intro p hp
  obtain ⟨a, ha, hname, hd, hsch, hmax, hparts⟩ := fetch_entry_inv hp
  refine ⟨?_, fun e => mem_participants_iff hp e, ⟨a, ha, hname, hd, hsch, hmax⟩⟩
  have hsLe : p.2.participants.Sorted (fun x y => x ≤ y) := by
    rw [hparts]
    exact (List.sorted_insertionSort strDataLe _).imp (fun h => strDataLe_le h)
  have hmapnd : ((s.registrations.filter (fun r => r.activity_name == a.name)).map
      (fun r => r.email)).Nodup := by
    refine List.Nodup.map_on ?_ (h2.filter _)
    intro x hx y hy hxy
    have hx2 : x.activity_name = a.name := by
      simpa using (List.mem_filter.mp hx).2
    have hy2 : y.activity_name = a.name := by
      simpa using (List.mem_filter.mp hy).2
    have hxy' : x.email = y.email := hxy
    have : (⟨x.activity_name, x.email⟩ : Registration) = ⟨y.activity_name, y.email⟩ := by
      rw [hx2, hy2, hxy']
    exact this
  have hpnd : p.2.participants.Nodup := by
    rw [hparts]
    exact (List.perm_insertionSort strDataLe _).symm.nodup hmapnd
  exact List.Sorted.lt_of_le hsLe hpnd

/-- Witness for C6 at a concrete two-activity store with out-of-order
rows. -/
theorem fetch_activities_deterministic_witness :
    (miniStore.activities.map Activity.name).Nodup ∧
    miniStore.registrations.Nodup ∧
    ((fetch_activities miniStore).map Prod.fst).Sorted (fun x y => x < y) ∧
    ((fetch_activities miniStore).map Prod.fst).Perm
      (miniStore.activities.map Activity.name) :=
  ⟨by decide, by decide,
    (fetch_activities_deterministic miniStore (by decide) (by decide)).1,
    (fetch_activities_deterministic miniStore (by decide) (by decide)).2.1⟩

/-- C7: initializing a fresh (empty) store and listing yields exactly the
9 seeded activities, keyed in ascending name order, each with its seeded
participants in ascending order — in particular "Chess Club" maps to
exactly ["daniel@mergington.edu", "michael@mergington.edu"]. -/
theorem fresh_store_listing :
    fetch_activities (init_db emptyStore) = [
      ("Art Club",
       ⟨"Explore your creativity through painting and drawing",
        "Thursdays, 3:30 PM - 5:00 PM", 15,
        ["amelia@mergington.edu", "harper@mergington.edu"]⟩),
      ("Basketball Team",
       ⟨"Practice and play basketball with the school team",
        "Wednesdays and Fridays, 3:30 PM - 5:00 PM", 15,
        ["ava@mergington.edu", "mia@mergington.edu"]⟩),
      ("Chess Club",
       ⟨"Learn strategies and compete in chess tournaments",
        "Fridays, 3:30 PM - 5:00 PM", 12,
        ["daniel@mergington.edu", "michael@mergington.edu"]⟩),
      ("Debate Team",
       ⟨"Develop public speaking and argumentation skills",
        "Fridays, 4:00 PM - 5:30 PM", 12,
        ["charlotte@mergington.edu", "henry@mergington.edu"]⟩),
      ("Drama Club",
       ⟨"Act, direct, and produce plays and performances",
        "Mondays and Wednesdays, 4:00 PM - 5:30 PM", 20,
        ["ella@mergington.edu", "scarlett@mergington.edu"]⟩),
      ("Gym Class",
       ⟨"Physical education and sports activities",
        "Mondays, Wednesdays, Fridays, 2:00 PM - 3:00 PM", 30,
        ["john@mergington.edu", "olivia@mergington.edu"]⟩),
      ("Math Club",
       ⟨"Solve challenging problems and participate in math competitions",
        "Tuesdays, 3:30 PM - 4:30 PM", 10,
        ["benjamin@mergington.edu", "james@mergington.edu"]⟩),
      ("Programming Class",
       ⟨"Learn programming fundamentals and build software projects",
        "Tuesdays and Thursdays, 3:30 PM - 4:30 PM", 20,
        ["emma@mergington.edu", "sophia@mergington.edu"]⟩),
      ("Soccer Team",
       ⟨"Join the school soccer team and compete in matches",
        "Tuesdays and Thursdays, 4:00 PM - 5:30 PM", 22,
        ["liam@mergington.edu", "noah@mergington.edu"]⟩)] := by
  decide
